import Mathlib

/-!
Shallow embedding of `src/test_samples/test_atc_transcription.py`, the
ATC transcription comparison harness.  Python floats are modelled as
rationals (all arithmetic in the script is on small exact values), Python
lists as Lean lists, and exceptions as `Except`/`Option` results.  The
external ML stack (model loading, inference, decoding) that each
`transcribe_with_*` function wraps in a `try` block is abstracted as an
oracle parameter returning `Except String String`; the external `jiwer`
scorer is abstracted likewise.
-/

set_option autoImplicit false

namespace ATC

/-- Python's two-argument `min` on numbers: the first argument when it is
less than or equal to the second, else the second.  Written as an explicit
`if` so that concrete values reduce in the kernel. -/
def pymin (a b : ℚ) : ℚ :=
  if a ≤ b then a else b

theorem pymin_eq_min (a b : ℚ) : pymin a b = min a b :=
  (min_def a b).symm

/-- Python `str.split()` with no separator: break a character list into the
maximal runs of non-whitespace characters, discarding all whitespace.  The
accumulator holds the current word reversed. -/
def splitWordsAux : List Char → List Char → List String
  | [], acc => if acc = [] then [] else [String.mk acc.reverse]
  | c :: cs, acc =>
    if c.isWhitespace then
      if acc = [] then splitWordsAux cs []
      else String.mk acc.reverse :: splitWordsAux cs []
    else splitWordsAux cs (c :: acc)

/-- Python `s.split()`. -/
def pySplit (s : String) : List String :=
  splitWordsAux s.data []

/-- Python `s.lower().split()`, the tokenization both WER branches apply
(`reference.lower().split()`, lines 34-35). -/
def pyWords (s : String) : List String :=
  pySplit (String.mk (s.data.map Char.toLower))

/-- Python inequality test `r != h` on strings, as the Bool the loop at
lines 40-42 branches on. -/
def pyNe (a b : String) : Bool :=
  decide (a ≠ b)

/-- Fallback branch of `calculate_wer` (lines 32-43): executed when the
`jiwer` import fails.  `errors` starts from the absolute length difference
and gains one per differing position of the zipped word lists; the result
is clamped by `min 1`. -/
def calculate_wer_fallback (reference hypothesis : String) : ℚ :=
  let ref_words := pyWords reference
  let hyp_words := pyWords hypothesis
  if ref_words = [] then
    if hyp_words ≠ [] then 1 else 0
  else
    let errors : ℕ :=
      ((ref_words.length : ℤ) - (hyp_words.length : ℤ)).natAbs
        + ((ref_words.zip hyp_words).filter (fun p => pyNe p.1 p.2)).length
    pymin 1 ((errors : ℚ) / (ref_words.length : ℚ))

/-- Full `calculate_wer` (lines 27-43): when the `jiwer` dependency is
available its `wer` function is applied to the lowercased strings, else
the fallback runs.  The external scorer is abstracted as an optional total
function. -/
def calculate_wer (jiwer : Option (String → String → ℚ))
    (reference hypothesis : String) : ℚ :=
  match jiwer with
  | some wer => wer (String.mk (reference.data.map Char.toLower))
      (String.mk (hypothesis.data.map Char.toLower))
  | none => calculate_wer_fallback reference hypothesis

/-- Fallback algorithm exactly as the specification words it: if the
reference tokenizes to zero words return 1 or 0 by whether the hypothesis
has words; otherwise the error count starts at the absolute difference of
the word-sequence lengths (`max - min` on naturals), adds one for every
position of the overlapping prefix where the sequences disagree (pairwise
compare up to the shorter length), and the result is
`min 1 (errorCount / referenceWordCount)`. -/
def wer_fallback_spec (reference hypothesis : String) : ℚ :=
  let refW := pyWords reference
  let hypW := pyWords hypothesis
  if refW.length = 0 then
    if hypW.length ≠ 0 then 1 else 0
  else
    let lengthGap : ℕ := max refW.length hypW.length - min refW.length hypW.length
    let mismatches : ℕ := (List.zipWith (fun r h => if r = h then 0 else 1) refW hypW).sum
    pymin 1 (((lengthGap + mismatches : ℕ) : ℚ) / (refW.length : ℚ))

/-- Modelled from the spec: the primary scorer's word-level minimum edit
distance (unit-cost insertions, deletions and substitutions via classical
dynamic-programming alignment).  The implementation of the primary scorer
is the external `jiwer` dependency, which is not part of this repository;
only this spec description of it is available. -/
def editDistance : List String → List String → ℕ
  | [], ys => ys.length
  | x :: xs, [] => (x :: xs).length
  | x :: xs, y :: ys =>
    if x = y then editDistance xs ys
    else 1 + min (editDistance xs ys)
        (min (editDistance (x :: xs) ys) (editDistance xs (y :: ys)))
termination_by xs ys => xs.length + ys.length

/-- Modelled from the spec: the primary WER algorithm divides the word
edit distance by the reference word count; with zero reference words that
division is a domain error (`jiwer` likewise rejects empty references),
modelled as `none`. -/
def wer_primary (reference hypothesis : String) : Option ℚ :=
  let refW := pyWords reference
  let hypW := pyWords hypothesis
  if refW.length = 0 then none
  else some ((editDistance refW hypW : ℚ) / (refW.length : ℚ))

/-- Audio field of a corpus entry (`item["audio"]`): waveform array and
sampling rate. -/
structure AudioData where
  array : List ℚ
  sampling_rate : ℕ
deriving DecidableEq

/-- One entry of the external HuggingFace dataset, exposing `audio` and
`text` fields. -/
structure CorpusItem where
  audio : AudioData
  text : String
deriving DecidableEq

/-- One loaded sample dict (`{"audio": ..., "text": ..., "id": i}`,
lines 58-62). -/
structure Sample where
  audio : AudioData
  text : String
  id : ℕ
deriving DecidableEq

/-- Body of the `for i, item in enumerate(dataset)` loop of
`load_atc_samples` (lines 55-62): stop as soon as the running index
reaches `num_samples`, otherwise append the sample with id `i`. -/
def load_loop (num_samples : ℕ) : List CorpusItem → ℕ → List Sample
  | [], _ => []
  | item :: rest, i =>
    if num_samples ≤ i then []
    else { audio := item.audio, text := item.text, id := i } :: load_loop num_samples rest (i + 1)

/-- Function `load_atc_samples` (lines 46-68).  The external
`load_dataset` call is abstracted as an `Except`: a raised exception
(`.error`) is caught and turned into the empty list. -/
def load_atc_samples (dataset : Except String (List CorpusItem)) (num_samples : ℕ) :
    List Sample :=
  match dataset with
  | .error _ => []
  | .ok items => load_loop num_samples items 0

/-- Shape of the abstracted ML inference stack of
`transcribe_with_generic_whisper` / `transcribe_with_atc_whisper`: from
the waveform and sample rate, either the stripped decoded transcription,
or the exception message of whatever failed inside the `try` block. -/
def Oracle : Type :=
  List ℚ → ℕ → Except String String

/-- Common body of `transcribe_with_generic_whisper` (lines 71-98) and
`transcribe_with_atc_whisper` (lines 101-129); the two functions differ
only in the bound model name, i.e. in the oracle.  Any failure inside the
`try` block becomes the sentinel string. -/
def transcribe_with_whisper (infer : Oracle) (audio_array : List ℚ) (sample_rate : ℕ) :
    String :=
  match infer audio_array sample_rate with
  | .ok transcription => transcription
  | .error e => "[Error: " ++ e ++ "]"

/-- Transcription and score one backend contributes for one sample: the
loop body of `run_comparison_test` stores the WER in the per-backend list
and prints the transcription (lines 158-172). -/
structure BackendScore where
  transcription : String
  wer : ℚ
deriving DecidableEq

/-- One backend's work for one sample inside the comparison loop:
transcribe, then score the result against the sample's ground truth. -/
def sample_step (scorer : String → String → ℚ) (infer : Oracle) (s : Sample) :
    BackendScore :=
  let result := transcribe_with_whisper infer s.audio.array s.audio.sampling_rate
  { transcription := result, wer := scorer s.text result }

/-- The `for sample in samples` loop of `run_comparison_test`
(lines 148-172): per sample, first the generic backend, then the ATC one;
each appends one score to its list, unconditionally. -/
def comparison_loop (scorer : String → String → ℚ) (genericInfer atcInfer : Oracle) :
    List Sample → List BackendScore × List BackendScore
  | [] => ([], [])
  | s :: rest =>
    let g := sample_step scorer genericInfer s
    let a := sample_step scorer atcInfer s
    let r := comparison_loop scorer genericInfer atcInfer rest
    (g :: r.1, a :: r.2)

/-- The two recommendation outcomes printed at lines 187-190. -/
inductive Recommendation where
  | recommendSpecialized
  | recommendLargerSpecialized
deriving DecidableEq

/-- Recommendation rule of lines 187-190: strictly below the fixed 0.15
threshold the ATC-tuned model is recommended, otherwise the larger model
is suggested. -/
def recommendation (avg_atc_wer : ℚ) : Recommendation :=
  if avg_atc_wer < 15 / 100 then .recommendSpecialized
  else .recommendLargerSpecialized

/-- Average of lines 179-180: `sum(wers) / len(wers) if wers else 0`. -/
def average (wers : List ℚ) : ℚ :=
  if wers = [] then 0 else wers.sum / (wers.length : ℚ)

/-- Data printed by the summary block (lines 174-190). -/
structure Summary where
  avg_generic_wer : ℚ
  avg_atc_wer : ℚ
  improvement : ℚ
  verdict : Recommendation
deriving DecidableEq

/-- Summary block of `run_comparison_test` (lines 174-190).  The
improvement line divides by `avg_generic_wer` unconditionally; in Python
a zero average raises `ZeroDivisionError` there, aborting the function
before the recommendation is reached — modelled as `.error`. -/
def run_summary (generic_wers atc_wers : List ℚ) : Except String Summary :=
  let avg_generic_wer := average generic_wers
  let avg_atc_wer := average atc_wers
  if avg_generic_wer = 0 then .error "ZeroDivisionError: float division by zero"
  else .ok { avg_generic_wer := avg_generic_wer, avg_atc_wer := avg_atc_wer,
             improvement := (avg_generic_wer - avg_atc_wer) / avg_generic_wer * 100,
             verdict := recommendation avg_atc_wer }

/-- Function `run_comparison_test` (lines 132-190): load exactly 5
samples (the count is hard-coded at line 139), return early (`none`) when
none load, else run the loop and the summary.  An uncaught
`ZeroDivisionError` from the summary shows up as `some (.error ...)`. -/
def run_comparison_test (jiwer : Option (String → String → ℚ))
    (dataset : Except String (List CorpusItem)) (genericInfer atcInfer : Oracle) :
    Option (Except String Summary) :=
  let samples := load_atc_samples dataset 5
  if samples = [] then none
  else
    let scores := comparison_loop (calculate_wer jiwer) genericInfer atcInfer samples
    some (run_summary (scores.1.map BackendScore.wer) (scores.2.map BackendScore.wer))

/-- Observable outcome of the `__main__` block. -/
inductive MainResult where
  | ranComparison (result : Option (Except String Summary))
  | printedMissingDeps

/-- The `__main__` block (lines 224-229): if `check_dependencies()`
succeeds, `run_comparison_test()` is called (with no arguments), else a
hint mentioning a `--demo` flag is printed.  The script never reads
`sys.argv`, so the command-line arguments are ignored. -/
def main_dispatch (_args : List String) (deps_present : Bool)
    (jiwer : Option (String → String → ℚ)) (dataset : Except String (List CorpusItem))
    (genericInfer atcInfer : Oracle) : MainResult :=
  if deps_present then
    .ranComparison (run_comparison_test jiwer dataset genericInfer atcInfer)
  else
    .printedMissingDeps

/-! ## Helper lemmas -/

theorem natAbs_coe_sub (a b : ℕ) : ((a : ℤ) - (b : ℤ)).natAbs = max a b - min a b := by
  omega

theorem filter_ne_length_eq_zipWith_sum :
    ∀ (l₁ l₂ : List String),
      ((l₁.zip l₂).filter (fun p => pyNe p.1 p.2)).length
        = (List.zipWith (fun r h => if r = h then (0 : ℕ) else 1) l₁ l₂).sum
  | [], l₂ => by simp
  | a :: l₁, [] => by simp
  | a :: l₁, b :: l₂ => by
    have ih := filter_ne_length_eq_zipWith_sum l₁ l₂
    rw [List.zip_cons_cons, List.filter_cons, List.zipWith_cons_cons, List.sum_cons]
    by_cases hab : a = b
    · rw [if_neg (by simp [pyNe, hab]), if_pos hab, ih, Nat.zero_add]
    · rw [if_pos (by simp [pyNe, hab]), if_neg hab, List.length_cons, ih]
      omega

theorem zip_self_filter_ne (l : List String) :
    (l.zip l).filter (fun p => pyNe p.1 p.2) = [] := by
  induction l with
  | nil => rfl
  | cons a l ih =>
    rw [List.zip_cons_cons, List.filter_cons, if_neg (by simp [pyNe])]
    exact ih

theorem eq_of_zip_filter_ne_nil :
    ∀ (l₁ l₂ : List String), l₁.length = l₂.length →
      (l₁.zip l₂).filter (fun p => pyNe p.1 p.2) = [] → l₁ = l₂
  | [], [], _, _ => rfl
  | [], _ :: _, hlen, _ => by simp at hlen
  | _ :: _, [], hlen, _ => by simp at hlen
  | a :: l₁, b :: l₂, hlen, hfil => by
    rw [List.zip_cons_cons, List.filter_cons] at hfil
    by_cases hab : a = b
    · rw [if_neg (by simp [pyNe, hab])] at hfil
      have hlen' : l₁.length = l₂.length := by simpa using hlen
      exact congrArg₂ (· :: ·) hab (eq_of_zip_filter_ne_nil l₁ l₂ hlen' hfil)
    · rw [if_pos (by simp [pyNe, hab])] at hfil
      exact absurd hfil (List.cons_ne_nil _ _)

theorem wer_fb_nonneg (r h : String) : 0 ≤ calculate_wer_fallback r h := by
  simp only [calculate_wer_fallback]
  split
  · split <;> norm_num
  · rw [pymin_eq_min]
    exact le_min (by norm_num) (div_nonneg (by positivity) (by positivity))

theorem wer_fb_le_one (r h : String) : calculate_wer_fallback r h ≤ 1 := by
  simp only [calculate_wer_fallback]
  split
  · split <;> norm_num
  · rw [pymin_eq_min]
    exact min_le_left 1 _

theorem wer_fb_eq_zero_iff (r h : String) :
    calculate_wer_fallback r h = 0 ↔ pyWords r = pyWords h := by
  simp only [calculate_wer_fallback]
  by_cases h1 : pyWords r = []
  · by_cases h2 : pyWords h = []
    · simp [h1, h2]
    · simp only [h1, if_pos rfl, if_pos h2]
      constructor
      · intro h0; exact absurd h0 one_ne_zero
      · intro heq; exact absurd heq.symm h2
  · rw [if_neg h1, pymin_eq_min]
    set e : ℕ := (((pyWords r).length : ℤ) - ((pyWords h).length : ℤ)).natAbs
        + (((pyWords r).zip (pyWords h)).filter (fun p => pyNe p.1 p.2)).length with he_def
    have hn : ((pyWords r).length : ℚ) ≠ 0 :=
      Nat.cast_ne_zero.mpr (fun h0 => h1 (List.length_eq_zero.mp h0))
    constructor
    · intro h0
      have he : (e : ℚ) / ((pyWords r).length : ℚ) = 0 := by
        rcases min_cases (1 : ℚ) ((e : ℚ) / ((pyWords r).length : ℚ)) with ⟨hm, _⟩ | ⟨hm, _⟩
        · rw [hm] at h0; exact absurd h0 one_ne_zero
        · rw [hm] at h0; exact h0
      have he0 : e = 0 := by
        rcases div_eq_zero_iff.mp he with hz | hz
        · exact_mod_cast hz
        · exact absurd hz hn
      rw [he_def] at he0
      have hlen : (pyWords r).length = (pyWords h).length := by omega
      have hfil : (((pyWords r).zip (pyWords h)).filter (fun p => pyNe p.1 p.2)).length = 0 := by
        omega
      exact eq_of_zip_filter_ne_nil _ _ hlen (List.length_eq_zero.mp hfil)
    · intro heq
      have he0 : e = 0 := by
        rw [he_def, heq, zip_self_filter_ne]
        simp
      rw [he0, Nat.cast_zero, zero_div]
      exact min_eq_right zero_le_one

theorem wer_fb_self (s : String) : calculate_wer_fallback s s = 0 :=
  (wer_fb_eq_zero_iff s s).mpr rfl

theorem comparison_loop_eq_map (scorer : String → String → ℚ) (g a : Oracle) :
    ∀ samples, comparison_loop scorer g a samples
      = (samples.map (sample_step scorer g), samples.map (sample_step scorer a))
  | [] => rfl
  | s :: rest => by
    simp [comparison_loop, comparison_loop_eq_map scorer g a rest]

theorem load_loop_eq_enumFrom (n : ℕ) :
    ∀ (items : List CorpusItem) (i : ℕ),
      load_loop n items i
        = (List.enumFrom i (items.take (n - i))).map
            (fun p => { audio := p.2.audio, text := p.2.text, id := p.1 })
  | [], i => by simp [load_loop]
  | item :: rest, i => by
    by_cases hi : n ≤ i
    · simp [load_loop, hi, Nat.sub_eq_zero_of_le hi]
    · have hsub : n - i = (n - (i + 1)) + 1 := by omega
      rw [hsub, List.take_succ_cons]
      have henum : List.enumFrom i (item :: (rest.take (n - (i + 1))))
          = (i, item) :: List.enumFrom (i + 1) (rest.take (n - (i + 1))) := rfl
      rw [henum]
      simp [load_loop, hi, load_loop_eq_enumFrom n rest (i + 1)]

/-! ## Claim theorems -/

/-- Claim C1: with the primary scorer dependency unavailable,
`calculate_wer` computes exactly the fallback algorithm the specification
describes: lowercase and whitespace-tokenize, return 1 or 0 on an empty
reference by whether the hypothesis has words, else count the length gap
plus the pairwise mismatches on the overlapping prefix and clamp the
ratio over the reference word count at 1. -/
theorem c1_fallback_algorithm_exact :
    ∀ (reference hypothesis : String),
      calculate_wer none reference hypothesis = wer_fallback_spec reference hypothesis := by
  intro r h
  show calculate_wer_fallback r h = wer_fallback_spec r h
  simp only [calculate_wer_fallback, wer_fallback_spec, ne_eq, List.length_eq_zero,
    natAbs_coe_sub, filter_ne_length_eq_zipWith_sum]

theorem recommendation_eq_specialized_iff (a : ℚ) :
    recommendation a = Recommendation.recommendSpecialized ↔ a < 15 / 100 := by
  unfold recommendation
  split
  · rename_i ha; exact iff_of_true rfl ha
  · rename_i ha; exact iff_of_false (fun hcon => Recommendation.noConfusion hcon) ha

theorem recommendation_eq_larger_iff (a : ℚ) :
    recommendation a = Recommendation.recommendLargerSpecialized ↔ 15 / 100 ≤ a := by
  unfold recommendation
  split
  · rename_i ha; exact iff_of_false (fun hcon => Recommendation.noConfusion hcon) (not_le.mpr ha)
  · rename_i ha; exact iff_of_true rfl (not_lt.mp ha)

/-- Claim C2: the recommendation is `RecommendSpecialized` exactly when
the specialized average WER is strictly below the fixed 0.15 threshold,
and `RecommendLargerSpecialized` exactly when it is at least 0.15; in
particular, a specialized average of 0.20 yields
`RecommendLargerSpecialized`. -/
theorem c2_recommendation_rule :
    (∀ a : ℚ,
      (recommendation a = Recommendation.recommendSpecialized ↔ a < 15 / 100)
      ∧ (recommendation a = Recommendation.recommendLargerSpecialized ↔ 15 / 100 ≤ a))
    ∧ recommendation (20 / 100) = Recommendation.recommendLargerSpecialized :=
  ⟨fun a => ⟨recommendation_eq_specialized_iff a, recommendation_eq_larger_iff a⟩,
   (recommendation_eq_larger_iff (20 / 100)).mpr (by norm_num)⟩

/-- Claim C7: the fallback scorer is bounded between 0 and 1 on every
pair of input strings. -/
theorem c7_fallback_bounded :
    ∀ (reference hypothesis : String),
      0 ≤ calculate_wer none reference hypothesis
      ∧ calculate_wer none reference hypothesis ≤ 1 :=
  fun r h => ⟨wer_fb_nonneg r h, wer_fb_le_one r h⟩

/-- Claim C10: the fallback branch of `calculate_wer` returns exactly 0
if and only if the lowercased whitespace tokenizations of reference and
hypothesis are equal word sequences, and is strictly positive exactly
when they differ. -/
theorem c10_fallback_zero_iff_token_eq :
    ∀ (reference hypothesis : String),
      (calculate_wer none reference hypothesis = 0 ↔ pyWords reference = pyWords hypothesis)
      ∧ (0 < calculate_wer none reference hypothesis ↔ pyWords reference ≠ pyWords hypothesis) := by
  intro r h
  refine ⟨wer_fb_eq_zero_iff r h, ?_, ?_⟩
  · intro hlt heq
    have h0 := (wer_fb_eq_zero_iff r h).mpr heq
    rw [show calculate_wer none r h = calculate_wer_fallback r h from rfl, h0] at hlt
    exact lt_irrefl 0 hlt
  · intro hne
    rcases lt_or_eq_of_le (wer_fb_nonneg r h) with hlt | heq0
    · exact hlt
    · exact absurd ((wer_fb_eq_zero_iff r h).mp heq0.symm) hne

/-- Claim C8 (amended): the fallback branch satisfies all three boundary
identities — `calculate_wer(s, s) = 0` for every string `s` (in
particular every nonempty one), `calculate_wer("", "") = 0` and
`calculate_wer("", "a b c") = 1` — but the primary algorithm (edit
distance over reference word count, modelled from the spec) is undefined
on a zero-word reference, so the two algorithms do not agree on the
empty-reference boundary. -/
theorem c8_boundary_cases :
    (∀ s : String, calculate_wer none s s = 0)
    ∧ calculate_wer none "" "" = 0
    ∧ calculate_wer none "" "a b c" = 1
    ∧ wer_primary "" "" = none
    ∧ wer_primary "" "a b c" = none :=
  ⟨fun s => wer_fb_self s, wer_fb_self "", by decide, by decide, by decide⟩

/-- Claim C8 counterexample: the primary algorithm, as specified (word
edit distance divided by reference word count), does not produce 1 on
the empty-reference boundary `("", "a b c")`; the division by a
zero-word reference is a domain error. -/
theorem c8_counterexample :
    wer_primary "" "a b c" = none ∧ wer_primary "" "a b c" ≠ some 1 := by
  constructor
  · decide
  · decide

/-- Claim C3 (amended): the summary computes
`improvementPercent = (avgGeneric − avgSpecialized) / avgGeneric × 100`
unconditionally; when the generic average WER is zero the division
raises `ZeroDivisionError`, aborting the summary before the
recommendation line, rather than omitting the figure. -/
theorem c3_improvement_division (generic_wers atc_wers : List ℚ) :
    (average generic_wers = 0 →
      run_summary generic_wers atc_wers
        = Except.error "ZeroDivisionError: float division by zero")
    ∧ (average generic_wers ≠ 0 →
      run_summary generic_wers atc_wers = Except.ok
        { avg_generic_wer := average generic_wers,
          avg_atc_wer := average atc_wers,
          improvement := (average generic_wers - average atc_wers) / average generic_wers * 100,
          verdict := recommendation (average atc_wers) }) := by
  constructor
  · intro h0
    simp only [run_summary, if_pos h0]
  · intro h0
    simp only [run_summary, if_neg h0]

theorem c3_improvement_division_witness :
    run_summary [0] [] = Except.error "ZeroDivisionError: float division by zero"
    ∧ run_summary [1, 1] [0] = Except.ok
        { avg_generic_wer := average [1, 1], avg_atc_wer := average [0],
          improvement := (average [1, 1] - average [0]) / average [1, 1] * 100,
          verdict := recommendation (average [0]) } :=
  ⟨(c3_improvement_division [0] []).1 (by norm_num [average]),
   (c3_improvement_division [1, 1] [0]).2 (by
      have hne : ([1, 1] : List ℚ) ≠ [] := by decide
      norm_num [average, hne])⟩

/-- Claim C3 counterexample: a reachable run (one sample, both backends
transcribing the reference exactly, so both average WERs are zero) in
which the aggregation performs the division by the zero generic average
and dies with `ZeroDivisionError` instead of omitting the improvement
figure. -/
theorem c3_counterexample :
    run_comparison_test none
        (Except.ok [{ audio := { array := [0], sampling_rate := 16000 }, text := "cleared" }])
        (fun _ _ => Except.ok "cleared") (fun _ _ => Except.ok "cleared")
      = some (Except.error "ZeroDivisionError: float division by zero") := by
  have hload : load_atc_samples
      (Except.ok [{ audio := { array := [0], sampling_rate := 16000 }, text := "cleared" }]) 5
      = [{ audio := { array := [0], sampling_rate := 16000 }, text := "cleared", id := 0 }] := by
    decide
  have hw : calculate_wer none "cleared" "cleared" = 0 := wer_fb_self "cleared"
  simp only [run_comparison_test, hload, comparison_loop, sample_step, transcribe_with_whisper]
  rw [if_neg (List.cons_ne_nil _ _)]
  simp only [hw, List.map_cons, List.map_nil, run_summary, average]
  norm_num

/-- Claim C4: a generic backend that fails on every invocation still
contributes exactly one scored outcome per sample — the sentinel
hypothesis `"[Error: <cause>]"` scored by `calculate_wer` — and both
backends' outcome lists always have exactly one entry per sample. -/
theorem c4_backend_failure_sentinel :
    ∀ (jiwer : Option (String → String → ℚ)) (cause : List ℚ → ℕ → String)
      (atcInfer : Oracle) (samples : List Sample),
      (comparison_loop (calculate_wer jiwer)
          (fun arr sr => Except.error (cause arr sr)) atcInfer samples).1
        = samples.map (fun s =>
            { transcription := "[Error: " ++ cause s.audio.array s.audio.sampling_rate ++ "]",
              wer := calculate_wer jiwer s.text
                ("[Error: " ++ cause s.audio.array s.audio.sampling_rate ++ "]") })
      ∧ (comparison_loop (calculate_wer jiwer)
          (fun arr sr => Except.error (cause arr sr)) atcInfer samples).1.length
          = samples.length
      ∧ (comparison_loop (calculate_wer jiwer)
          (fun arr sr => Except.error (cause arr sr)) atcInfer samples).2.length
          = samples.length := by
  intro jiwer cause atcInfer samples
  rw [comparison_loop_eq_map]
  refine ⟨?_, by simp, by simp⟩
  simp [sample_step, transcribe_with_whisper]

/-- Claim C5: a corpus-access failure makes `load_atc_samples` return
the empty list rather than raise, and a run whose loaded sample list is
empty terminates immediately with the empty report `none` — for every
choice of backends and scorer, so no backend is invoked and no scoring
occurs. -/
theorem c5_corpus_failure_empty_run :
    ∀ (e : String) (n : ℕ) (jiwer : Option (String → String → ℚ))
      (dataset : Except String (List CorpusItem)) (genericInfer atcInfer : Oracle),
      load_atc_samples (Except.error e) n = []
      ∧ (load_atc_samples dataset 5 = [] →
          run_comparison_test jiwer dataset genericInfer atcInfer = none) := by
  intro e n jiwer dataset g a
  refine ⟨rfl, fun hempty => ?_⟩
  simp [run_comparison_test, hempty]

theorem c5_corpus_failure_empty_run_witness :
    run_comparison_test none (Except.error "Error loading dataset")
      (fun _ _ => Except.ok "a") (fun _ _ => Except.ok "b") = none :=
  (c5_corpus_failure_empty_run "Error loading dataset" 5 none
      (Except.error "Error loading dataset")
      (fun _ _ => Except.ok "a") (fun _ _ => Except.ok "b")).2
    ((c5_corpus_failure_empty_run "Error loading dataset" 5 none
        (Except.error "Error loading dataset")
        (fun _ _ => Except.ok "a") (fun _ _ => Except.ok "b")).1)

/-- Claim C6: `load_atc_samples` is a deterministic prefix-take — it
returns the first `min count corpusSize` corpus entries in corpus order
with sequential 0-based ids — and a run over a corpus of size `m < n`
produces exactly `m` outcomes per backend. -/
theorem c6_prefix_take :
    ∀ (items : List CorpusItem) (n : ℕ),
      load_atc_samples (Except.ok items) n
        = (items.take n).enum.map
            (fun p => { audio := p.2.audio, text := p.2.text, id := p.1 })
      ∧ (load_atc_samples (Except.ok items) n).length = min n items.length
      ∧ (load_atc_samples (Except.ok items) n).map Sample.id = List.range (min n items.length)
      ∧ (∀ (jiwer : Option (String → String → ℚ)) (genericInfer atcInfer : Oracle),
          items.length < n →
            (comparison_loop (calculate_wer jiwer) genericInfer atcInfer
                (load_atc_samples (Except.ok items) n)).1.length = items.length
            ∧ (comparison_loop (calculate_wer jiwer) genericInfer atcInfer
                (load_atc_samples (Except.ok items) n)).2.length = items.length) := by
  intro items n
  have hmain : load_atc_samples (Except.ok items) n
      = (items.take n).enum.map
          (fun p => { audio := p.2.audio, text := p.2.text, id := p.1 }) := by
    show load_loop n items 0
        = (items.take n).enum.map (fun p => { audio := p.2.audio, text := p.2.text, id := p.1 })
    rw [load_loop_eq_enumFrom n items 0, Nat.sub_zero]
    rfl
  have hlen : (load_atc_samples (Except.ok items) n).length = min n items.length := by
    rw [hmain]
    simp [List.enum, List.enumFrom_length, List.length_take]
  refine ⟨hmain, hlen, ?_, ?_⟩
  · rw [hmain, List.map_map]
    have hcomp : (Sample.id ∘ fun p : ℕ × CorpusItem =>
        ({ audio := p.2.audio, text := p.2.text, id := p.1 } : Sample)) = Prod.fst := rfl
    rw [hcomp, List.enum_map_fst, List.length_take]
  · intro jiwer g a hlt
    constructor <;>
      · simp only [comparison_loop_eq_map, List.length_map, hlen]
        omega

theorem c6_prefix_take_witness :
    (comparison_loop (calculate_wer none) (fun _ _ => Except.ok "x") (fun _ _ => Except.ok "y")
        (load_atc_samples (Except.ok
          [{ audio := { array := [0], sampling_rate := 8000 }, text := "tower" }]) 5)).1.length = 1
    ∧ (comparison_loop (calculate_wer none) (fun _ _ => Except.ok "x") (fun _ _ => Except.ok "y")
        (load_atc_samples (Except.ok
          [{ audio := { array := [0], sampling_rate := 8000 }, text := "tower" }]) 5)).2.length = 1 :=
  (c6_prefix_take [{ audio := { array := [0], sampling_rate := 8000 }, text := "tower" }] 5).2.2.2
    none (fun _ _ => Except.ok "x") (fun _ _ => Except.ok "y") (by decide)

/-- Claim C9 (code bug): the entry point parses no command-line
arguments at all — `main_dispatch` gives the same result whatever `args`
holds, and invoking with `--demo` while the ML dependencies are missing
only prints the missing-dependency hint, it runs no demo. -/
theorem c9_argv_ignored :
    ∀ (args : List String) (deps_present : Bool) (jiwer : Option (String → String → ℚ))
      (dataset : Except String (List CorpusItem)) (genericInfer atcInfer : Oracle),
      main_dispatch args deps_present jiwer dataset genericInfer atcInfer
        = main_dispatch [] deps_present jiwer dataset genericInfer atcInfer
      ∧ main_dispatch ["--demo"] false jiwer dataset genericInfer atcInfer
        = MainResult.printedMissingDeps :=
  fun _ _ _ _ _ _ => ⟨rfl, rfl⟩

end ATC
